import Mathlib

/-!
# Verification of the git-me-ai frontend core

A shallow embedding, in Lean 4, of the live preview / editor subsystem and
its sibling utilities from the `git-me-ai` repository
(`frontend/vite-project/src`), together with theorems settling the
specification's claims about them.

Strings manipulated character-by-character (template insertion, the `--`
URL encoding of repository full names) are modelled as `List Char`; strings
that are only stored, compared or concatenated are modelled as `String`.
Stateful React components are modelled as explicit state records with one
Lean function per event handler / effect; DOM side effects are modelled as
explicit action traces; code that can raise an exception is modelled with
`Except`.
-/

namespace GitMeAI

/-! ## JavaScript string primitives

`jsSubstring` embeds `String.prototype.substring(indexStart, indexEnd)`:
both indices are clamped to `[0, length]` and swapped when out of order,
and the half-open slice between them is returned.  (Negative arguments,
which JavaScript also clamps to 0, do not arise: the callers pass DOM
selection offsets and lengths, which are non-negative.)

`replaceFirst` embeds `String.prototype.replace(pattern, replacement)` for
a non-empty literal string pattern: only the first (leftmost) occurrence of
the pattern is replaced; a string with no occurrence is returned unchanged.
-/

def jsSubstring (s : List Char) (a b : Nat) : List Char :=
  let a' := min a s.length
  let b' := min b s.length
  if a' ≤ b' then (s.take b').drop a' else (s.take a').drop b'

def replaceFirst (pat rep : List Char) : List Char → List Char
  | [] => []
  | c :: s =>
    if pat.isPrefixOf (c :: s) then rep ++ (c :: s).drop pat.length
    else c :: replaceFirst pat rep s

/-- Returns `true` iff the non-empty pattern `pat` occurs as a contiguous substring. -/
def hasSub (pat : List Char) : List Char → Bool
  | [] => false
  | c :: s => pat.isPrefixOf (c :: s) || hasSub pat s

/-- Returns `true` iff the list is non-empty and its last element is `c`. -/
def endsWith (c : Char) : List Char → Bool
  | [] => false
  | [d] => d == c
  | _ :: d :: s => endsWith c (d :: s)

/-! ## ReadmeLivePreview component state

`ReadmeLivePreview.tsx` holds five `useState` fields.  Each event handler
of the component becomes a function from the state record (plus the event's
payload) to an updated state record.  `handleContentChange` additionally
returns the list of values passed to the optional `onContentChange`
callback during the edit (the owning page stores the last such value as its
current content). -/

structure PreviewState where
  activeTab : Nat
  editableContent : String
  previewWidth : ℚ
  fontSize : Nat
  darkTheme : Bool
  deriving DecidableEq, Repr

namespace ReadmeLivePreview

/-- Initial `useState` values: tab 0 (editor), buffer = the externally
supplied `readmeContent` prop, pane width 50 %, font size 14, light theme. -/
def initState (readmeContent : String) : PreviewState :=
  { activeTab := 0
    editableContent := readmeContent
    previewWidth := 50
    fontSize := 14
    darkTheme := false }

/-- The `useEffect` with dependency array `[readmeContent]`: whenever the
externally supplied text changes, the internal buffer is overwritten with
it (`setEditableContent(readmeContent)`). -/
def applyReadmeContentEffect (st : PreviewState) (readmeContent : String) : PreviewState :=
  { st with editableContent := readmeContent }

/-- Handler `handleTabChange`: stores the new tab index and nothing else. -/
def handleTabChange (st : PreviewState) (newValue : Nat) : PreviewState :=
  { st with activeTab := newValue }

/-- Handler `handleContentChange`: stores the textarea's new value in the buffer
and, when an `onContentChange` callback was supplied, invokes it once with
the full new content.  The second component is the list of callback
invocations performed by this handler. -/
def handleContentChange (st : PreviewState) (hasCallback : Bool) (newContent : String) :
    PreviewState × List String :=
  ({ st with editableContent := newContent },
   if hasCallback then [newContent] else [])

/-- The text shown by the editable surface (the `textarea` / `pre` value):
always the buffer itself. -/
def editorText (st : PreviewState) : String :=
  st.editableContent

/-- The text fed to the markup renderer (`ReactMarkdown`'s child): always
the buffer itself, in both the preview tab and the split view. -/
def previewSourceText (st : PreviewState) : String :=
  st.editableContent

/-- Helper `insertTemplate`: splice the template into the buffer at the current
selection, `editableContent.substring(0, start) + template +
editableContent.substring(end)`, then (after the re-render) place the caret
at `start + template.length`.  Returns the new buffer and the caret
position. -/
def insertTemplate (editableContent template : List Char) (selStart selEnd : Nat) :
    List Char × Nat :=
  (jsSubstring editableContent 0 selStart ++ template ++
     jsSubstring editableContent selEnd editableContent.length,
   selStart + template.length)

/-! ### Split-view resize handle

`onMouseDown` on the divider captures the starting pointer X coordinate and
the starting pane-width percentage.  Every subsequent `mousemove` computes
the pointer's displacement from the *start* of the drag as a percentage of
the container width, adds it to the starting percentage, and clamps the
result to `[25, 70]` before storing it (`Math.min(70, Math.max(25,
startWidth + deltaPercent))`).  Coordinates and percentages are modelled as
rationals. -/

/-- The clamp applied on every move: `Math.min(70, Math.max(25, w))`. -/
def clampPaneWidth (w : ℚ) : ℚ :=
  min 70 (max 25 w)

/-- Handler `handleMouseMove`: the width stored after one move event, given the
width captured at `mousedown`, the container width, and the pointer's
horizontal displacement since `mousedown`. -/
def resizeOnMove (startWidth containerWidth deltaX : ℚ) : ℚ :=
  clampPaneWidth (startWidth + deltaX / containerWidth * 100)

/-- The widths stored after each move of a drag, one per move event.  Each
move recomputes from the width captured at `mousedown`, not from the
previous move's result. -/
def dragWidths (startWidth containerWidth : ℚ) (deltaXs : List ℚ) : List ℚ :=
  deltaXs.map (fun dx => resizeOnMove startWidth containerWidth dx)

end ReadmeLivePreview

/-! ## File downloads -/

/-- The observable result of a triggered browser download: the `download`
attribute of the synthetic link (the filename), the MIME type of the blob,
and the text the blob was built from. -/
structure TriggeredDownload where
  filename : String
  mimeType : String
  content : String
  deriving DecidableEq, Repr

namespace ReadmeLivePreview

/-- The component's `downloadReadme`: a `text/markdown` blob holding the
buffer, downloaded as `` `${repoName || 'README'}.md` ``.  The `repoName`
prop is optional, and JavaScript's `||` also replaces an empty string by
the default. -/
def downloadReadme (repoName : Option String) (editableContent : String) :
    TriggeredDownload :=
  { filename :=
      (match repoName with
       | some r => if r = "" then "README" else r
       | none => "README") ++ ".md"
    mimeType := "text/markdown"
    content := editableContent }

end ReadmeLivePreview

namespace ApiService

/-- Utility `ApiService.downloadReadme(content, fileName)`: a `text/markdown` blob
holding `content`, downloaded under the caller-chosen `fileName` (the
parameter defaults to `'README.md'` when omitted). -/
def downloadReadme (content : String) (fileName : String) : TriggeredDownload :=
  { filename := fileName
    mimeType := "text/markdown"
    content := content }

end ApiService

namespace ReadmeGeneratorWithPreview

/-- The page's `handleDownload`: builds the filename
`` `${readmeData.repo_analysis.name}-README.md` `` and delegates to
`ApiService.downloadReadme` with the page's current content. -/
def handleDownload (repoAnalysisName : String) (currentReadmeContent : String) :
    TriggeredDownload :=
  ApiService.downloadReadme currentReadmeContent (repoAnalysisName ++ "-README.md")

end ReadmeGeneratorWithPreview

/-! ## Clipboard copying

`ApiService.copyToClipboard` first attempts the native asynchronous
clipboard write; whether that write succeeds depends on the environment and
is modelled by a boolean.  The `catch` arm runs the legacy fallback and
does not rethrow, so the operation's result, modelled as an `Except`, is
always `ok`.  The DOM side effects performed are returned as an action
trace. -/

inductive DomAction where
  /-- A `navigator.clipboard.writeText(text)` call was attempted. -/
  | nativeClipboardWrite (text : String)
  /-- A `textarea` holding `value` was created with `position: fixed` and
  coordinates `-999999px`, i.e. off-screen. -/
  | createOffscreenTextArea (value : String)
  | appendTextAreaToBody
  | focusTextArea
  | selectTextArea
  /-- A `document.execCommand` call issuing the legacy copy command. -/
  | execCopyCommand
  | removeTextArea
  deriving DecidableEq, Repr

/-- The DOM action sequence of the legacy fallback path, in source order. -/
def fallbackCopyActions (text : String) : List DomAction :=
  [DomAction.createOffscreenTextArea text,
   DomAction.appendTextAreaToBody,
   DomAction.focusTextArea,
   DomAction.selectTextArea,
   DomAction.execCopyCommand,
   DomAction.removeTextArea]

namespace ApiService

/-- Utility `ApiService.copyToClipboard(text)`: try the native write; on failure
run the legacy fallback.  Returns what the caller observes (never an
error) and the trace of DOM actions performed. -/
def copyToClipboard (nativeWriteSucceeds : Bool) (text : String) :
    Except String Unit × List DomAction :=
  if nativeWriteSucceeds then
    (Except.ok (), [DomAction.nativeClipboardWrite text])
  else
    (Except.ok (), DomAction.nativeClipboardWrite text :: fallbackCopyActions text)

end ApiService

namespace ReadmeLivePreview

/-- The component's own `copyToClipboard`: try the native write; on
failure only log (`console.error`).  Returns what the caller observes
(never an error) and whether a failure was logged. -/
def copyToClipboard (nativeWriteSucceeds : Bool) (_text : String) :
    Except String Unit × Bool :=
  if nativeWriteSucceeds then (Except.ok (), false) else (Except.ok (), true)

end ReadmeLivePreview

/-! ## Authentication state and the 401 interceptor -/

/-- The credential-relevant browser state: the service's in-memory token
field, the token persisted under `localStorage['github_token']`, and
`window.location.href`. -/
structure AuthState where
  token : Option String
  storedToken : Option String
  location : String
  deriving DecidableEq, Repr

namespace ApiService

/-- Method `ApiService.clearToken()`: null the in-memory token and remove the
persisted one. -/
def clearToken (st : AuthState) : AuthState :=
  { st with token := none, storedToken := none }

/-- The axios response interceptor's rejection arm: when the response
status is 401, clear the token and set `window.location.href = '/login'`;
in every case re-reject the error (the returned boolean records that the
error is propagated onward, i.e. no recovery is attempted). -/
def responseInterceptorOnError (st : AuthState) (status : Option Nat) :
    AuthState × Bool :=
  if status = some 401 then
    ({ clearToken st with location := "/login" }, true)
  else
    (st, true)

end ApiService

/-! ## Backend wake-up service -/

namespace BackendWakeup

/-- The wake-up probe's abort deadline: `setTimeout(() =>
controller.abort(), 30000)` — a hard-coded 30 000 ms. -/
def wakeupTimeoutMs : Nat := 30000

/-- The options record passed to `fetch` by `isBackendReady`: it includes
an explicit `timeout: 5000` entry. -/
structure FetchOptions where
  method : String
  timeoutMs : Option Nat
  deriving DecidableEq, Repr

def isBackendReadyFetchOptions : FetchOptions :=
  { method := "GET", timeoutMs := some 5000 }

/-- The two static mutable flags of `BackendWakeupService`. -/
structure WakeupFlags where
  isWakingUp : Bool
  isWarmedUp : Bool
  deriving DecidableEq, Repr

/-- The environment of one probe: when (in ms) a response arrives, if
ever, and whether it is `response.ok`. -/
structure WakeupEnv where
  responseArrivesAt : Option Nat
  responseOk : Bool
  deriving DecidableEq, Repr

/-- Method `wakeUpBackend()`: if a probe is already running or done, return the
warmed-up flag.  Otherwise issue the probe with an `AbortController` whose
abort fires after `wakeupTimeoutMs`; a response arriving strictly before
the deadline resolves the fetch (`ok` ⇒ warmed up), otherwise the abort
rejects the fetch and the `catch` arm returns `false`.  Either way the
call returns a boolean — it never hangs. -/
def wakeUpBackend (flags : WakeupFlags) (env : WakeupEnv) : Bool × WakeupFlags :=
  if flags.isWakingUp || flags.isWarmedUp then
    (flags.isWarmedUp, flags)
  else
    match env.responseArrivesAt with
    | some t =>
      if t < wakeupTimeoutMs then
        if env.responseOk then (true, { isWakingUp := false, isWarmedUp := true })
        else (false, { isWakingUp := false, isWarmedUp := false })
      else (false, { isWakingUp := false, isWarmedUp := false })
    | none => (false, { isWakingUp := false, isWarmedUp := false })

end BackendWakeup

/-! ## URL encoding of repository full names

The dashboard navigates to `` `/generate/${repo.full_name.replace('/', '--')}` ``
and both generator pages recover the full name with
`repoName.replace('--', '/')`.  JavaScript's `replace` with a string
pattern rewrites only the first occurrence. -/

namespace Dashboard

/-- Handler `handleGenerateReadme`'s URL encoding: replace the first `/` of the
full name by `--`. -/
def encodeRepoFullName (fullName : List Char) : List Char :=
  replaceFirst ['/'] ['-', '-'] fullName

end Dashboard

namespace ReadmeGeneratorWithPreview

/-- The decoding used identically by `loadInitialData`, `handleRegenerate`
and `handleCommitToRepo` here and by `loadData` / `handleRegenerate` in
`ReadmeGenerator`: replace the first `--` of the URL parameter by `/`. -/
def decodeRepoName (repoNameParam : List Char) : List Char :=
  replaceFirst ['-', '-'] ['/'] repoNameParam

end ReadmeGeneratorWithPreview

/-! ### Round-trip lemmas for `replaceFirst` -/

theorem replaceFirst_cons_of_neg (pat rep : List Char) (c : Char) (s : List Char)
    (h : pat.isPrefixOf (c :: s) = false) :
    replaceFirst pat rep (c :: s) = c :: replaceFirst pat rep s := by
  simp [replaceFirst, h]

theorem replaceFirst_cons_of_pos (pat rep : List Char) (c : Char) (s : List Char)
    (h : pat.isPrefixOf (c :: s) = true) :
    replaceFirst pat rep (c :: s) = rep ++ (c :: s).drop pat.length := by
  simp [replaceFirst, h]

/-- Encoding a full name whose owner part contains no `/` rewrites exactly
the separating slash. -/
theorem encode_appends (o r : List Char) (h : '/' ∉ o) :
    replaceFirst ['/'] ['-', '-'] (o ++ '/' :: r) = o ++ '-' :: '-' :: r := by
  induction o with
  | nil =>
    rw [List.nil_append, replaceFirst_cons_of_pos _ _ _ _ (by simp [List.isPrefixOf])]
    rfl
  | cons c o ih =>
    have hcne : ('/' : Char) ≠ c := by
      intro hcc
      exact h (by rw [hcc]; exact List.mem_cons_self c o)
    have hmem : '/' ∉ o := fun hm => h (List.mem_cons_of_mem _ hm)
    have hcond : (['/'].isPrefixOf (c :: (o ++ '/' :: r))) = false := by
      simp [List.isPrefixOf, hcne]
    rw [List.cons_append, replaceFirst_cons_of_neg _ _ _ _ hcond, ih hmem]
    rfl

/-- Decoding the encoded form rewrites exactly the inserted `--`, provided
the owner part contains no `--` and does not end in `-`. -/
theorem decode_appends : ∀ (o r : List Char), hasSub ['-', '-'] o = false →
    endsWith '-' o = false →
    replaceFirst ['-', '-'] ['/'] (o ++ '-' :: '-' :: r) = o ++ '/' :: r
  | [], r, _, _ => by
    rw [List.nil_append, replaceFirst_cons_of_pos _ _ _ _ (by simp [List.isPrefixOf])]
    rfl
  | [c], r, _, h3 => by
    have hc : ('-' : Char) ≠ c := by
      intro hcc
      have h3' : (c == '-') = false := h3
      rw [← hcc] at h3'
      simp at h3'
    have hcond : (['-', '-'].isPrefixOf (c :: '-' :: '-' :: r)) = false := by
      simp [List.isPrefixOf, hc]
    rw [show ([c] ++ '-' :: '-' :: r : List Char) = c :: '-' :: '-' :: r from rfl,
      replaceFirst_cons_of_neg _ _ _ _ hcond,
      replaceFirst_cons_of_pos _ _ _ _ (by simp [List.isPrefixOf])]
    rfl
  | c :: d :: o, r, h2, h3 => by
    have h2' : (['-', '-'].isPrefixOf (c :: d :: o) || hasSub ['-', '-'] (d :: o)) =
        false := h2
    have hA : (['-', '-'].isPrefixOf (c :: d :: o)) = false := by
      cases hx : ['-', '-'].isPrefixOf (c :: d :: o) with
      | false => rfl
      | true => rw [hx] at h2'; simp at h2'
    have hB : hasSub ['-', '-'] (d :: o) = false := by
      cases hx : hasSub ['-', '-'] (d :: o) with
      | false => rfl
      | true => rw [hx] at h2'; simp at h2'
    have h3' : endsWith '-' (d :: o) = false := h3
    have hcond : (['-', '-'].isPrefixOf (c :: ((d :: o) ++ '-' :: '-' :: r))) =
        false := by
      simp only [List.isPrefixOf, List.cons_append] at hA ⊢
      exact hA
    rw [show ((c :: d :: o) ++ '-' :: '-' :: r : List Char)
        = c :: ((d :: o) ++ '-' :: '-' :: r) from rfl,
      replaceFirst_cons_of_neg _ _ _ _ hcond,
      decode_appends (d :: o) r hB h3']
    rfl

/-- C10 counterexample: the owner `"a-"` contains no `--`, yet the full
name built from owner `"a-"` and repo `"b"` encodes to `"a---b"`, whose
first `--` starts inside the owner, so decoding moves the separator one
character to the left — the round trip is not the identity under the
claim's precondition alone. -/
theorem repo_roundtrip_counterexample :
    ('/' ∉ (['a', '-'] : List Char)) ∧
      hasSub ['-', '-'] ['a', '-'] = false ∧
      Dashboard.encodeRepoFullName (['a', '-'] ++ '/' :: ['b']) =
        ['a', '-', '-', '-', 'b'] ∧
      ReadmeGeneratorWithPreview.decodeRepoName ['a', '-', '-', '-', 'b'] =
        ['a', '/', '-', 'b'] ∧
      ReadmeGeneratorWithPreview.decodeRepoName
          (Dashboard.encodeRepoFullName (['a', '-'] ++ '/' :: ['b'])) ≠
        ['a', '-'] ++ '/' :: ['b'] := by
  decide

/-- C10 amended: for a full name `owner ++ "/" ++ repo` whose owner part
contains no `/`, contains no `--`, **and does not end in `-`**, encoding
for the generation-page URL and then decoding is the identity. -/
theorem repo_fullname_roundtrip (owner repo : List Char)
    (h1 : '/' ∉ owner) (h2 : hasSub ['-', '-'] owner = false)
    (h3 : endsWith '-' owner = false) :
    ReadmeGeneratorWithPreview.decodeRepoName
        (Dashboard.encodeRepoFullName (owner ++ '/' :: repo)) =
      owner ++ '/' :: repo := by
  rw [Dashboard.encodeRepoFullName, encode_appends owner repo h1,
    ReadmeGeneratorWithPreview.decodeRepoName, decode_appends owner repo h2 h3]

/-- Closed witness for `repo_fullname_roundtrip` at full name
`"user/re-po"`. -/
theorem repo_fullname_roundtrip_witness :
    ReadmeGeneratorWithPreview.decodeRepoName
        (Dashboard.encodeRepoFullName
          (['u', 's', 'e', 'r'] ++ '/' :: ['r', 'e', '-', 'p', 'o'])) =
      ['u', 's', 'e', 'r'] ++ '/' :: ['r', 'e', '-', 'p', 'o'] :=
  repo_fullname_roundtrip ['u', 's', 'e', 'r'] ['r', 'e', '-', 'p', 'o']
    (by decide) (by decide) (by decide)

end GitMeAI

namespace GitMeAI

/-- C1: with an in-range selection `s ≤ e ≤ |B|`, template insertion yields
`B[0:s] ++ F ++ B[e:]` and the caret lands at `s + |F|`. -/
theorem insertTemplate_splices (B F : List Char) (s e : Nat)
    (hse : s ≤ e) (heB : e ≤ B.length) :
    (ReadmeLivePreview.insertTemplate B F s e).1 = B.take s ++ F ++ B.drop e ∧
      (ReadmeLivePreview.insertTemplate B F s e).2 = s + F.length := by
  have hs : s ≤ B.length := le_trans hse heB
  constructor
  · show jsSubstring B 0 s ++ F ++ jsSubstring B e B.length = B.take s ++ F ++ B.drop e
    have h1 : jsSubstring B 0 s = B.take s := by
      simp [jsSubstring, Nat.min_eq_left hs]
    have h2 : jsSubstring B e B.length = B.drop e := by
      simp [jsSubstring, Nat.min_eq_left heB, List.drop_take]
      omega
    rw [h1, h2]
  · rfl

/-- Closed witness for `insertTemplate_splices` at buffer `"hello"`,
fragment `"XY"`, selection `(1, 3)`. -/
theorem insertTemplate_splices_witness :
    (ReadmeLivePreview.insertTemplate
        ['h','e','l','l','o'] ['X','Y'] 1 3).1 =
      ['h','e','l','l','o'].take 1 ++ ['X','Y'] ++ ['h','e','l','l','o'].drop 3 ∧
      (ReadmeLivePreview.insertTemplate ['h','e','l','l','o'] ['X','Y'] 1 3).2 =
        1 + (['X','Y'] : List Char).length :=
  insertTemplate_splices ['h','e','l','l','o'] ['X','Y'] 1 3 (by decide) (by decide)

/-- C2: a change of the externally supplied text resets the internal
buffer to exactly that text, discarding uncommitted local edits: in
general the effect makes the buffer equal the new external text, and in
particular for external text `a` locally edited to `b` and then external
text changed to `c`, the buffer becomes `c`. -/
theorem external_text_resets_buffer (st : PreviewState) (a b c : String) :
    (ReadmeLivePreview.applyReadmeContentEffect st c).editableContent = c ∧
      (ReadmeLivePreview.applyReadmeContentEffect
          (ReadmeLivePreview.handleContentChange
            (ReadmeLivePreview.initState a) true b).1 c).editableContent = c :=
  ⟨rfl, rfl⟩

/-- C3: starting from any pane width in `[25, 70]`, every width produced
during a drag — whatever the magnitude of each move's displacement and
whatever the container width — lies in `[25, 70]`. -/
theorem dragWidths_clamped (startWidth containerWidth : ℚ) (deltaXs : List ℚ)
    (hlo : 25 ≤ startWidth) (hhi : startWidth ≤ 70) :
    ∀ w ∈ ReadmeLivePreview.dragWidths startWidth containerWidth deltaXs,
      25 ≤ w ∧ w ≤ 70 := by
  intro w hw
  rcases List.mem_map.mp hw with ⟨dx, -, rfl⟩
  unfold ReadmeLivePreview.resizeOnMove ReadmeLivePreview.clampPaneWidth
  constructor
  · exact le_min (by norm_num) (le_max_left 25 _)
  · exact min_le_left 70 _

/-- Closed witness for `dragWidths_clamped`: a single move with a huge
positive displacement starting at 50 % in a 1200-px container still lands
in `[25, 70]`. -/
theorem dragWidths_clamped_witness :
    25 ≤ ReadmeLivePreview.resizeOnMove 50 1200 100000 ∧
      ReadmeLivePreview.resizeOnMove 50 1200 100000 ≤ 70 :=
  dragWidths_clamped 50 1200 [100000] (by norm_num) (by norm_num)
    (ReadmeLivePreview.resizeOnMove 50 1200 100000)
    (by simp [ReadmeLivePreview.dragWidths])

/-- C4: `handleTabChange` stores the new tab index and leaves the buffer
untouched; the edit surface and the preview both render from that same
single buffer value, before and after the switch. -/
theorem tab_change_preserves_buffer (st : PreviewState) (newTab : Nat) :
    (ReadmeLivePreview.handleTabChange st newTab).editableContent = st.editableContent ∧
      ReadmeLivePreview.editorText (ReadmeLivePreview.handleTabChange st newTab) =
        ReadmeLivePreview.editorText st ∧
      ReadmeLivePreview.previewSourceText (ReadmeLivePreview.handleTabChange st newTab) =
        ReadmeLivePreview.previewSourceText st ∧
      ReadmeLivePreview.editorText st = ReadmeLivePreview.previewSourceText st :=
  ⟨rfl, rfl, rfl, rfl⟩

/-- C5: when a change callback is supplied, each edit invokes it exactly
once, with the full new buffer content, and leaves the buffer equal to
that same content — so the owner's held value equals the buffer. -/
theorem edit_notifies_full_content (st : PreviewState) (hasCallback : Bool)
    (newContent : String) (h : hasCallback = true) :
    (ReadmeLivePreview.handleContentChange st hasCallback newContent).2 = [newContent] ∧
      (ReadmeLivePreview.handleContentChange st hasCallback
          newContent).1.editableContent = newContent := by
  subst h
  exact ⟨rfl, rfl⟩

/-- Closed witness for `edit_notifies_full_content` at a concrete state
and edit. -/
theorem edit_notifies_full_content_witness :
    (ReadmeLivePreview.handleContentChange
        (ReadmeLivePreview.initState "A") true "AB").2 = ["AB"] ∧
      (ReadmeLivePreview.handleContentChange
          (ReadmeLivePreview.initState "A") true "AB").1.editableContent = "AB" :=
  edit_notifies_full_content (ReadmeLivePreview.initState "A") true "AB" rfl

/-- C6 counterexample: the page-level download button, with subject
`"my-repo"` and content `"X"`, triggers a download named
`"my-repo-README.md"`, not `"my-repo.md"` — so not every triggered
download is named `<subject>.md`. -/
theorem download_naming_counterexample :
    (ReadmeGeneratorWithPreview.handleDownload "my-repo" "X").filename =
        "my-repo-README.md" ∧
      (ReadmeGeneratorWithPreview.handleDownload "my-repo" "X").filename ≠
        "my-repo.md" ∧
      (ReadmeGeneratorWithPreview.handleDownload "my-repo" "X").content = "X" := by
  refine ⟨rfl, ?_, rfl⟩
  decide

/-- C6 amended: the preview component's download is named `<subject>.md`
(`README.md` when the subject is absent or empty) with a `text/markdown`
type and the buffer as content; the page-level download is likewise
`text/markdown` with the current content, but is named
`<subject>-README.md`. -/
theorem download_naming (subject content pageSubject : String) (h : subject ≠ "") :
    (ReadmeLivePreview.downloadReadme (some subject) content).filename =
        subject ++ ".md" ∧
      (ReadmeLivePreview.downloadReadme none content).filename = "README.md" ∧
      (ReadmeLivePreview.downloadReadme (some "") content).filename = "README.md" ∧
      (ReadmeLivePreview.downloadReadme (some subject) content).mimeType =
        "text/markdown" ∧
      (ReadmeLivePreview.downloadReadme (some subject) content).content = content ∧
      (ReadmeGeneratorWithPreview.handleDownload pageSubject content).filename =
        pageSubject ++ "-README.md" ∧
      (ReadmeGeneratorWithPreview.handleDownload pageSubject content).mimeType =
        "text/markdown" ∧
      (ReadmeGeneratorWithPreview.handleDownload pageSubject content).content =
        content := by
  refine ⟨?_, rfl, rfl, rfl, rfl, rfl, rfl, rfl⟩
  simp [ReadmeLivePreview.downloadReadme, h]

/-- Closed witness for `download_naming` at subject `"my-proj"` and
content `"X"`. -/
theorem download_naming_witness :
    (ReadmeLivePreview.downloadReadme (some "my-proj") "X").filename =
        "my-proj" ++ ".md" ∧
      (ReadmeLivePreview.downloadReadme none "X").filename = "README.md" ∧
      (ReadmeLivePreview.downloadReadme (some "") "X").filename = "README.md" ∧
      (ReadmeLivePreview.downloadReadme (some "my-proj") "X").mimeType =
        "text/markdown" ∧
      (ReadmeLivePreview.downloadReadme (some "my-proj") "X").content = "X" ∧
      (ReadmeGeneratorWithPreview.handleDownload "p" "X").filename =
        "p" ++ "-README.md" ∧
      (ReadmeGeneratorWithPreview.handleDownload "p" "X").mimeType =
        "text/markdown" ∧
      (ReadmeGeneratorWithPreview.handleDownload "p" "X").content = "X" :=
  download_naming "my-proj" "X" "p" (by decide)

/-- C7: copying never surfaces an error to the caller, whatever the
environment, and when the native write fails the fallback creates the
off-screen text field, selects its content, issues the legacy copy
command and removes the field (in that order); the component-level copy
likewise never errors and merely logs the failure. -/
theorem copy_never_throws (nativeWriteSucceeds : Bool) (text : String) :
    (ApiService.copyToClipboard nativeWriteSucceeds text).1 = Except.ok () ∧
      (ApiService.copyToClipboard false text).2 =
        [DomAction.nativeClipboardWrite text,
         DomAction.createOffscreenTextArea text,
         DomAction.appendTextAreaToBody,
         DomAction.focusTextArea,
         DomAction.selectTextArea,
         DomAction.execCopyCommand,
         DomAction.removeTextArea] ∧
      (ReadmeLivePreview.copyToClipboard nativeWriteSucceeds text).1 =
        Except.ok () ∧
      (ReadmeLivePreview.copyToClipboard false text).2 = true := by
  cases nativeWriteSucceeds <;> exact ⟨rfl, rfl, rfl, rfl⟩

/-- C8: a request rejected with status 401 clears both the in-memory and
the persisted token, redirects to `/login`, and still propagates the
error (no recovery). -/
theorem unauthorized_clears_credential (st : AuthState) (status : Option Nat)
    (h : status = some 401) :
    (ApiService.responseInterceptorOnError st status).1.token = none ∧
      (ApiService.responseInterceptorOnError st status).1.storedToken = none ∧
      (ApiService.responseInterceptorOnError st status).1.location = "/login" ∧
      (ApiService.responseInterceptorOnError st status).2 = true := by
  subst h
  exact ⟨rfl, rfl, rfl, rfl⟩

/-- Closed witness for `unauthorized_clears_credential` at a concrete
authenticated state. -/
theorem unauthorized_clears_credential_witness :
    (ApiService.responseInterceptorOnError
        ⟨some "tok", some "tok", "/dashboard"⟩ (some 401)).1.token = none ∧
      (ApiService.responseInterceptorOnError
          ⟨some "tok", some "tok", "/dashboard"⟩ (some 401)).1.storedToken = none ∧
      (ApiService.responseInterceptorOnError
          ⟨some "tok", some "tok", "/dashboard"⟩ (some 401)).1.location = "/login" ∧
      (ApiService.responseInterceptorOnError
          ⟨some "tok", some "tok", "/dashboard"⟩ (some 401)).2 = true :=
  unauthorized_clears_credential ⟨some "tok", some "tok", "/dashboard"⟩ (some 401) rfl

/-- C9 counterexample: the wake-up probe's abort deadline is the
hard-coded constant 30 000 ms — not configurable — and it is not the only
explicit timeout in the code: `isBackendReady` passes an explicit
`timeout: 5000` entry in its fetch options. -/
theorem wakeup_timeout_counterexample :
    BackendWakeup.wakeupTimeoutMs = 30000 ∧
      BackendWakeup.isBackendReadyFetchOptions.timeoutMs = some 5000 ∧
      BackendWakeup.isBackendReadyFetchOptions.timeoutMs ≠ none := by
  exact ⟨rfl, rfl, by decide⟩

/-- C9 amended: the wake-up probe's timeout is a fixed 30-second bound;
whenever no response arrives within that bound (late or never), the probe
is aborted and `wakeUpBackend` still completes, returning `false` — it
never hangs.  (A separate explicit `timeout: 5000` option appears in the
readiness check's fetch options.) -/
theorem wakeup_probe_bounded (env : BackendWakeup.WakeupEnv)
    (h : ∀ t, env.responseArrivesAt = some t → BackendWakeup.wakeupTimeoutMs ≤ t) :
    BackendWakeup.wakeupTimeoutMs = 30000 ∧
      BackendWakeup.wakeUpBackend ⟨false, false⟩ env =
        (false, ⟨false, false⟩) := by
  refine ⟨rfl, ?_⟩
  unfold BackendWakeup.wakeUpBackend
  simp only [Bool.or_self, Bool.false_eq_true, if_false]
  cases henv : env.responseArrivesAt with
  | none => rfl
  | some t =>
    have ht := h t henv
    simp [Nat.not_lt.mpr ht]

/-- Closed witness for `wakeup_probe_bounded`: a response arriving at
40 000 ms (after the 30 000 ms deadline) yields `false`. -/
theorem wakeup_probe_bounded_witness :
    BackendWakeup.wakeupTimeoutMs = 30000 ∧
      BackendWakeup.wakeUpBackend ⟨false, false⟩ ⟨some 40000, true⟩ =
        (false, ⟨false, false⟩) :=
  wakeup_probe_bounded ⟨some 40000, true⟩ (by intro t ht; cases ht; decide)

end GitMeAI
